import Mathlib

/-!
Verification of the Student Management System (src/main.py) against its
natural-language specification.

The program keeps two flat record collections (students, courses) in CSV
files.  Records travel through the program as Python dicts produced by
`csv.DictReader`; we embed a record as an ordered association list of
field names to string values (Python dicts preserve insertion order, and
every value that reaches the CSV file is serialized as a string, so a
purely string-valued model is observably faithful: the integer `id`
created by `add` and the integer `RRN` created by `calculate_rrn` are
represented by their decimal strings, which is exactly what `csv.writer`
persists).

A CSV file is embedded at the structured level (header plus string rows);
byte-level quoting is handled transparently by Python's `csv` module and
is not load-bearing for any claim.
-/

/-- A record: ordered association list of field names to values,
modelling a Python dict row (`csv.DictReader` output). -/
abbrev Rec := List (String × String)

/-- Look up the value of field `k` in record `r` (Python `r[k]`,
first match). -/
def lookupField : Rec → String → Option String
  | [], _ => none
  | kv :: t, k => if kv.1 == k then some kv.2 else lookupField t k

/-- The field names of a record, in order (Python `r.keys()`). -/
def recKeys (r : Rec) : List String := r.map (fun kv => kv.1)

/-- Is field `k` present in record `r` (Python `k in r`)? -/
def hasField (r : Rec) (k : String) : Bool :=
  (lookupField r k).isSome

/-- Overwrite the value stored under an existing key, keeping its
position (the keys of a Python dict never move on reassignment). -/
def replaceField : Rec → String → String → Rec
  | [], _, _ => []
  | kv :: t, k, v =>
    if kv.1 == k then (k, v) :: replaceField t k v else kv :: replaceField t k v

/-- Python dict assignment `r[k] = v`: replace the value if the key is
present, otherwise append the new key at the end (insertion order). -/
def setField (r : Rec) (k v : String) : Rec :=
  if hasField r k then replaceField r k v else r ++ [(k, v)]

/-- A CSV file at the structured level: the header row and the data rows.
`main.py` stores one such file per collection. -/
structure CsvFile where
  header : List String
  rows : List (List String)
deriving DecidableEq, Repr

/-- `read_csv` (src/main.py:39-52): `csv.DictReader` zips the header with
each data row to make one dict per row. -/
def read_csv (f : CsvFile) : List Rec :=
  f.rows.map (fun row => f.header.zip row)

/-- One serialized row of `csv.DictWriter`: for each field name of the
header, the record's value, with `restval ""` for a missing key. -/
def projRow (header : List String) (r : Rec) : List String :=
  header.map (fun k => (lookupField r k).getD "")

/-- `write_csv` (src/main.py:55-67).  Note the guard `if data:` in the
source: with an empty record list the file is NOT touched.  Otherwise the
whole file is overwritten, the header taken from the keys of the first
record (`fieldnames=data[0].keys()`). -/
def write_csv (f : CsvFile) (data : List Rec) : CsvFile :=
  match data with
  | [] => f
  | r :: _ => ⟨recKeys r, data.map (projRow (recKeys r))⟩

/-- Helper for `calculate_rrn`: annotate records with 1-based positions
starting at `i`. -/
def calcRRNFrom : Nat → List Rec → List Rec
  | _, [] => []
  | i, r :: rest => setField r "RRN" (toString i) :: calcRRNFrom (i + 1) rest

/-- `calculate_rrn` (src/main.py:70-83): `for i, row in enumerate(data,
start=1): row['RRN'] = i`.  Crucially this mutates the row dicts in
place, so the annotation is visible to any later `write_csv` of the same
list. -/
def calculate_rrn (data : List Rec) : List Rec := calcRRNFrom 1 data

/-- The field values collected by the Add Student dialog
(src/main.py:117-123), in the dict order of the source. -/
structure StudentInfo where
  name : String
  sex : String
  age : String
  institution : String
  major : String
deriving DecidableEq, Repr

/-- `all(info.values())` for a student (src/main.py:125). -/
def studentInfoValid (i : StudentInfo) : Bool :=
  i.name ≠ "" && i.sex ≠ "" && i.age ≠ "" && i.institution ≠ "" && i.major ≠ ""

/-- The record `{"id": student_id, **info}` (src/main.py:128): the `id`
integer is modelled by its decimal string, which is what the CSV layer
persists. -/
def mkStudentRec (n : Nat) (i : StudentInfo) : Rec :=
  [("id", toString n), ("name", i.name), ("sex", i.sex), ("age", i.age),
   ("institution", i.institution), ("major", i.major)]

/-- `save_student` inside `add_student` (src/main.py:115-134): on valid
input, read the file, assign `id = len(students) + 1`, append, write;
on any empty field, warn and leave the file alone.  The second component
is the warning message shown, `none` on success. -/
def save_student (f : CsvFile) (i : StudentInfo) : CsvFile × Option String :=
  if studentInfoValid i then
    let students := read_csv f
    (write_csv f (students ++ [mkStudentRec (students.length + 1) i]), none)
  else
    (f, some "All fields are required!")

/-- The field values collected by the Add Course dialog
(src/main.py:174-178). -/
structure CourseInfo where
  name : String
  credit : String
  cproperty : String
deriving DecidableEq, Repr

/-- `all(info.values())` for a course (src/main.py:180). -/
def courseInfoValid (i : CourseInfo) : Bool :=
  i.name ≠ "" && i.credit ≠ "" && i.cproperty ≠ ""

/-- The record `{"id": course_id, **info}` (src/main.py:183). -/
def mkCourseRec (n : Nat) (i : CourseInfo) : Rec :=
  [("id", toString n), ("name", i.name), ("credit", i.credit),
   ("property", i.cproperty)]

/-- `save_course` inside `add_course` (src/main.py:172-189). -/
def save_course (f : CsvFile) (i : CourseInfo) : CsvFile × Option String :=
  if courseInfoValid i then
    let courses := read_csv f
    (write_csv f (courses ++ [mkCourseRec (courses.length + 1) i]), none)
  else
    (f, some "All fields are required!")

/-- Python's substring test for char lists: does the first list occur as
a prefix of the second? -/
def charsStart : List Char → List Char → Bool
  | [], _ => true
  | _ :: _, [] => false
  | a :: as, b :: bs => a == b && charsStart as bs

/-- Python's `needle in hay` for char lists: contiguous sublist
containment. -/
def charsContain : List Char → List Char → Bool
  | ns, [] => ns.isEmpty
  | ns, c :: rest => charsStart ns (c :: rest) || charsContain ns rest

/-- Python `needle in hay` on strings (contiguous substring). -/
def pyIn (needle hay : String) : Bool :=
  charsContain needle.toList hay.toList

/-- Python `s.lower()`, modelled as per-character lowering (the ASCII
range is all these claims exercise). -/
def pyLower (s : String) : String :=
  String.mk (s.toList.map Char.toLower)

/-- The match predicate of `search_student`/`search_course`
(src/main.py:237, 250): `name.lower() in entry["name"].lower()`. -/
def nameMatches (query : String) (r : Rec) : Bool :=
  pyIn (pyLower query) (pyLower ((lookupField r "name").getD ""))

/-- The data-level core of `search_student` (src/main.py:229-239):
`simpledialog.askstring` yields `none` on cancel; the guard `if name:`
skips the whole search when the reply is `None` OR the empty string
(both falsy in Python).  Otherwise the result is the filtered list, in
load order.  Nothing is ever written. -/
def search_student_data (data : List Rec) (query : Option String) :
    Option (List Rec) :=
  match query with
  | none => none
  | some q => if q == "" then none else some (data.filter (nameMatches q))

/-- `search_student` at the store level: the file is never written, and
no warning dialog exists in the source of this operation. -/
def search_student (f : CsvFile) (query : Option String) :
    CsvFile × Option (List Rec) :=
  (f, search_student_data (read_csv f) query)

/-- `search_course` (src/main.py:242-252), same shape as
`search_student`. -/
def search_course (f : CsvFile) (query : Option String) :
    CsvFile × Option (List Rec) :=
  (f, search_student_data (read_csv f) query)

/-- `delete_entry` (src/main.py:308-331).  `askinteger` yields `none` on
cancel; the source check is `not entry_rrn or entry_rrn < 1 or entry_rrn
> len(data_with_rrn)` (`not 0` is true in Python, subsumed here by
`p < 1`).  On a valid position, `data.pop(entry_rrn - 1)` removes that
element of the RRN-annotated list (the annotation was made in place) and
the result is written back.  The second component is the warning shown,
`none` on success. -/
def delete_entry (f : CsvFile) (rrn : Option Int) : CsvFile × Option String :=
  let data := read_csv f
  if data.isEmpty then
    (f, some "No entries to delete!")
  else
    let ann := calculate_rrn data
    match rrn with
    | none => (f, some "Invalid RRN!")
    | some p =>
      if p < 1 ∨ p > (ann.length : Int) then
        (f, some "Invalid RRN!")
      else
        (write_csv f (ann.eraseIdx (p.toNat - 1)), none)

/-- `save_changes` inside `edit_entry` (src/main.py:280-286): fold the
edit widgets over the record; a widget with key `"id"` or an empty
content is skipped (`if key != "id" and widget.get():`), any other one
overwrites the field. -/
def applyUpdates (r : Rec) (u : List (String × String)) : Rec :=
  u.foldl
    (fun acc kv =>
      if kv.1 ≠ "id" && kv.2 ≠ "" then setField acc kv.1 kv.2 else acc)
    r

/-- The edit dialog builds one entry widget per field of the selected
record except `RRN` (src/main.py:296-303), in the record's key order;
`newVals` gives the content the user left in each widget. -/
def editWidgets (entry : Rec) (newVals : String → String) :
    List (String × String) :=
  ((recKeys entry).filter (fun k => k ≠ "RRN")).map (fun k => (k, newVals k))

/-- `edit_entry` (src/main.py:255-306).  Same position validation as
`delete_entry`; on a valid position the selected record of the
RRN-annotated list is replaced by the widget-updated record and the whole
(annotated) list is written back.  `rtype` is the `record_type`
parameter used in the empty-collection message. -/
def edit_entry (f : CsvFile) (rtype : String) (rrn : Option Int)
    (newVals : String → String) : CsvFile × Option String :=
  let data := read_csv f
  if data.isEmpty then
    (f, some ("No " ++ rtype ++ "s to edit!"))
  else
    let ann := calculate_rrn data
    match rrn with
    | none => (f, some "Invalid RRN!")
    | some p =>
      if p < 1 ∨ p > (ann.length : Int) then
        (f, some "Invalid RRN!")
      else
        let entry := ann.getD (p.toNat - 1) []
        let entry2 := applyUpdates entry (editWidgets entry newVals)
        (write_csv f (ann.set (p.toNat - 1) entry2), none)

/-- `compact_file` (src/main.py:334-344): read then immediately write
back. -/
def compact_file (f : CsvFile) : CsvFile :=
  write_csv f (read_csv f)

/-- Decimal digit accumulator for the identifier parser. -/
def parseNatCharsAux : List Char → Nat → Option Nat
  | [], acc => some acc
  | c :: t, acc =>
    if c.isDigit then parseNatCharsAux t (acc * 10 + (c.toNat - 48))
    else none

/-- Parse a non-empty string of decimal digits. -/
def parseNatChars (l : List Char) : Option Nat :=
  match l with
  | [] => none
  | _ => parseNatCharsAux l 0

/-- Parse an optionally-signed decimal integer (Python `int(s)` on the
strings this program produces). -/
def parseIntChars : List Char → Option Int
  | [] => none
  | c :: t =>
    if c = '-' then (parseNatChars t).map (fun n => -(n : Int))
    else (parseNatChars (c :: t)).map (fun n => (n : Int))

/-- The integer parse of a record's identifier, used by the sort
comparator. -/
def parseId (r : Rec) : Option Int :=
  parseIntChars ((lookupField r "id").getD "").toList

/-- Modelled from the spec: the numeric-ascending comparator on
identifiers for `sort(..., "id")` (spec section 4.2). -/
def cmpId (a b : Rec) : Bool :=
  decide ((parseId a).getD 0 ≤ (parseId b).getD 0)

/-- Modelled from the spec: the file src/main.py contains no sort
operation (the spec documents it from other iterations of this program,
absent from src/).  Per spec section 4.2: for field `"id"` the comparator
is numeric ascending on the identifier parsed as an integer, failing
with `ValidationError` when any identifier is not integer-like; the sort
is stable. -/
def sort_by_id_data (data : List Rec) : Except String (List Rec) :=
  if data.all (fun r => (parseId r).isSome) then
    .ok (data.mergeSort cmpId)
  else
    .error "ValidationError"

/-- Modelled from the spec: store-level sort by `"id"` — spec section
4.2: "Result is persisted immediately".  On a validation failure the
file is untouched. -/
def sort_by_id (f : CsvFile) : CsvFile × Option String :=
  match sort_by_id_data (read_csv f) with
  | .ok d => (write_csv f d, none)
  | .error e => (f, some e)

/-- The in-memory collection of file `f` right after `calculate_rrn`,
as it stands when `edit_entry`/`delete_entry` prompt for a position. -/
def annotated (f : CsvFile) : List Rec := calculate_rrn (read_csv f)

/-- The record selected by `edit_entry` for display position `p`. -/
def selectedEntry (f : CsvFile) (p : Int) : Rec :=
  (annotated f).getD (p.toNat - 1) []

/-- The record after `save_changes` applied the edit widgets. -/
def editedEntry (f : CsvFile) (p : Int) (newVals : String → String) : Rec :=
  applyUpdates (selectedEntry f p) (editWidgets (selectedEntry f p) newVals)

/-- A well-formed student header, as written by `initialize_files`
(src/main.py:28). -/
def studentHeader : List String :=
  ["id", "name", "sex", "age", "institution", "major"]

/-- An empty students file (header only). -/
def SampleStudents0 : CsvFile := ⟨studentHeader, []⟩

/-- A students file holding exactly one record. -/
def SampleStudents1 : CsvFile :=
  ⟨studentHeader, [["1", "Ann", "Female", "20", "X", "CS"]]⟩

/-- A students file holding two records. -/
def SampleStudents2 : CsvFile :=
  ⟨studentHeader,
   [["1", "Ann", "Female", "20", "X", "CS"],
    ["2", "Bob", "Male", "21", "Y", "EE"]]⟩

/-- A second empty file with a different (course) header, used to state
that `write_csv` ignores the file's previous content. -/
def SampleCourses0 : CsvFile := ⟨["id", "name", "credit", "property"], []⟩

/-! ## Basic lemmas about the embedded store -/

theorem length_read_csv (f : CsvFile) :
    (read_csv f).length = f.rows.length := by
  simp [read_csv]

theorem read_csv_eq_nil_iff (f : CsvFile) :
    read_csv f = [] ↔ f.rows = [] := by
  simp [read_csv]

theorem length_calcRRNFrom (i : Nat) (data : List Rec) :
    (calcRRNFrom i data).length = data.length := by
  induction data generalizing i with
  | nil => rfl
  | cons r t ih => simp [calcRRNFrom, ih]

theorem length_calculate_rrn (data : List Rec) :
    (calculate_rrn data).length = data.length :=
  length_calcRRNFrom 1 data

theorem write_csv_rows_length (f : CsvFile) (data : List Rec)
    (h : data ≠ []) : (write_csv f data).rows.length = data.length := by
  cases data with
  | nil => exact absurd rfl h
  | cons r t => simp [write_csv]

theorem write_csv_agnostic (f g : CsvFile) (data : List Rec)
    (h : data ≠ []) : write_csv f data = write_csv g data := by
  cases data with
  | nil => exact absurd rfl h
  | cons r t => rfl

/-! ## Lemmas about field lookup and assignment -/

theorem lookupField_cons_self (kv : String × String) (t : Rec) :
    lookupField (kv :: t) kv.1 = some kv.2 := by
  simp [lookupField]

theorem lookupField_cons_ne (kv : String × String) (t : Rec) (k : String)
    (h : kv.1 ≠ k) : lookupField (kv :: t) k = lookupField t k := by
  simp [lookupField, h]

theorem lookupField_replaceField_self (r : Rec) (k v : String)
    (hp : hasField r k = true) :
    lookupField (replaceField r k v) k = some v := by
  induction r with
  | nil => simp [hasField, lookupField] at hp
  | cons kv t ih =>
    by_cases h : kv.1 = k
    · simp [replaceField, h, lookupField]
    · have hp2 : hasField t k = true := by
        simpa [hasField, lookupField, h] using hp
      simp [replaceField, h, lookupField, ih hp2]

theorem lookupField_replaceField_ne (r : Rec) (k v k2 : String)
    (h : k2 ≠ k) :
    lookupField (replaceField r k v) k2 = lookupField r k2 := by
  induction r with
  | nil => rfl
  | cons kv t ih =>
    by_cases hh : kv.1 = k
    · have : k ≠ k2 := fun hk => h hk.symm
      simp [replaceField, hh, lookupField, this, ih]
    · by_cases hk2 : kv.1 = k2
      · simp [replaceField, hh, lookupField, hk2, h]
      · simp [replaceField, hh, lookupField, hk2, ih]

theorem lookupField_append_single_ne (r : Rec) (k v k2 : String)
    (h : k2 ≠ k) :
    lookupField (r ++ [(k, v)]) k2 = lookupField r k2 := by
  induction r with
  | nil =>
    have : k ≠ k2 := fun hk => h hk.symm
    simp [lookupField, this]
  | cons kv t ih =>
    by_cases hk2 : kv.1 = k2
    · simp [lookupField, hk2]
    · simp [lookupField, hk2, ih]

theorem lookupField_append_single_self (r : Rec) (k v : String)
    (hab : hasField r k = false) :
    lookupField (r ++ [(k, v)]) k = some v := by
  induction r with
  | nil => simp [lookupField]
  | cons kv t ih =>
    have hne : kv.1 ≠ k := by
      intro hh
      simp [hasField, lookupField, hh] at hab
    have ht : hasField t k = false := by
      simpa [hasField, lookupField, hne] using hab
    simp [lookupField, hne, ih ht]

theorem lookupField_setField_self (r : Rec) (k v : String) :
    lookupField (setField r k v) k = some v := by
  unfold setField
  by_cases hp : hasField r k = true
  · simp [hp, lookupField_replaceField_self r k v hp]
  · have hp2 : hasField r k = false := by simpa using hp
    simp [hp2, lookupField_append_single_self r k v hp2]

theorem lookupField_setField_ne (r : Rec) (k v k2 : String) (h : k2 ≠ k) :
    lookupField (setField r k v) k2 = lookupField r k2 := by
  unfold setField
  split
  · exact lookupField_replaceField_ne r k v k2 h
  · exact lookupField_append_single_ne r k v k2 h

/-! ## Round-trip: `read_csv` after `write_csv` -/

theorem assoc_reconstruct (r : Rec) (h : (recKeys r).Nodup) :
    (recKeys r).map (fun k => (k, (lookupField r k).getD "")) = r := by
  induction r with
  | nil => rfl
  | cons kv t ih =>
    have hk : recKeys (kv :: t) = kv.1 :: recKeys t := by simp [recKeys]
    rw [hk] at h ⊢
    have hnotin : kv.1 ∉ recKeys t := (List.nodup_cons.mp h).1
    have hnd : (recKeys t).Nodup := (List.nodup_cons.mp h).2
    simp only [List.map_cons]
    have hhead : lookupField (kv :: t) kv.1 = some kv.2 :=
      lookupField_cons_self kv t
    rw [hhead]
    have htail :
        (recKeys t).map (fun k => (k, (lookupField (kv :: t) k).getD "")) =
          (recKeys t).map (fun k => (k, (lookupField t k).getD "")) := by
      apply List.map_congr_left
      intro k hkmem
      have hne : kv.1 ≠ k := fun hh => hnotin (hh ▸ hkmem)
      rw [lookupField_cons_ne kv t k hne]
    rw [htail, ih hnd]
    simp

theorem zip_self_map {α β : Type} (l : List α) (g : α → β) :
    l.zip (l.map g) = l.map (fun a => (a, g a)) := by
  induction l with
  | nil => rfl
  | cons a t ih => simp [ih]

theorem zip_projRow (ks : List String) (r : Rec) (hk : recKeys r = ks)
    (hn : ks.Nodup) : ks.zip (projRow ks r) = r := by
  subst hk
  unfold projRow
  rw [zip_self_map, assoc_reconstruct r hn]

theorem read_csv_write_csv (f : CsvFile) (data : List Rec)
    (hne : data ≠ [])
    (hn : (recKeys (data.headD [])).Nodup)
    (hk : ∀ s ∈ data, recKeys s = recKeys (data.headD [])) :
    read_csv (write_csv f data) = data := by
  cases data with
  | nil => exact absurd rfl hne
  | cons r t =>
    simp only [List.headD_cons] at hn hk
    show read_csv ⟨recKeys r, (r :: t).map (projRow (recKeys r))⟩ = r :: t
    unfold read_csv
    simp only [List.map_map]
    have : ∀ s ∈ r :: t,
        (recKeys r).zip (projRow (recKeys r) s) = s := by
      intro s hs
      exact zip_projRow (recKeys r) s (hk s hs) hn
    calc ((r :: t).map fun s => (recKeys r).zip (projRow (recKeys r) s))
        = (r :: t).map id := List.map_congr_left (fun s hs => this s hs)
      _ = r :: t := List.map_id _

/-! ## Lemmas about `save_changes` (the edit fold) -/

theorem lookupField_applyUpdates_id (r : Rec)
    (u : List (String × String)) :
    lookupField (applyUpdates r u) "id" = lookupField r "id" := by
  induction u generalizing r with
  | nil => rfl
  | cons kv t ih =>
    show lookupField
      (applyUpdates
        (if kv.1 ≠ "id" && kv.2 ≠ "" then setField r kv.1 kv.2 else r) t)
      "id" = lookupField r "id"
    rw [ih]
    by_cases hg : (kv.1 ≠ "id" && kv.2 ≠ "") = true
    · have hne : ("id" : String) ≠ kv.1 := by
        intro hh
        simp [← hh] at hg
      rw [if_pos hg, lookupField_setField_ne r kv.1 kv.2 "id" hne]
    · rw [if_neg hg]

theorem lookupField_applyUpdates_notin (r : Rec)
    (u : List (String × String)) (k : String)
    (h : k ∉ u.map Prod.fst) :
    lookupField (applyUpdates r u) k = lookupField r k := by
  induction u generalizing r with
  | nil => rfl
  | cons kv t ih =>
    have hne : k ≠ kv.1 := by
      intro hh
      exact h (by simp [hh])
    have ht : k ∉ t.map Prod.fst := by
      intro hh
      exact h (by simp [hh])
    show lookupField
      (applyUpdates
        (if kv.1 ≠ "id" && kv.2 ≠ "" then setField r kv.1 kv.2 else r) t)
      k = lookupField r k
    rw [ih _ ht]
    by_cases hg : (kv.1 ≠ "id" && kv.2 ≠ "") = true
    · rw [if_pos hg, lookupField_setField_ne r kv.1 kv.2 k hne]
    · rw [if_neg hg]

theorem lookupField_applyUpdates_mem (r : Rec)
    (u : List (String × String)) (k v : String)
    (hnd : (u.map Prod.fst).Nodup) (hmem : (k, v) ∈ u) (hkid : k ≠ "id") :
    lookupField (applyUpdates r u) k =
      if v = "" then lookupField r k else some v := by
  induction u generalizing r with
  | nil => exact absurd hmem (List.not_mem_nil _)
  | cons kv t ih =>
    have hnd1 : kv.1 ∉ t.map Prod.fst := (List.nodup_cons.mp hnd).1
    have hnd2 : (t.map Prod.fst).Nodup := (List.nodup_cons.mp hnd).2
    rcases List.mem_cons.mp hmem with heq | hmemt
    · subst heq
      show lookupField
        (applyUpdates
          (if (k, v).1 ≠ "id" && (k, v).2 ≠ "" then
            setField r (k, v).1 (k, v).2 else r) t) k =
        if v = "" then lookupField r k else some v
      have hnotin : k ∉ t.map Prod.fst := hnd1
      rw [lookupField_applyUpdates_notin _ t k hnotin]
      by_cases hv : v = ""
      · have : ((k, v).1 ≠ "id" && (k, v).2 ≠ "") = false := by
          simp [hv]
        rw [this]
        simp [hv]
      · have : ((k, v).1 ≠ "id" && (k, v).2 ≠ "") = true := by
          simp [hkid, hv]
        rw [this]
        simp [hv, lookupField_setField_self]
    · have hkv1 : kv.1 ≠ k := by
        intro hh
        exact hnd1 (hh ▸ List.mem_map_of_mem Prod.fst hmemt)
      show lookupField
        (applyUpdates
          (if kv.1 ≠ "id" && kv.2 ≠ "" then setField r kv.1 kv.2 else r) t)
        k = if v = "" then lookupField r k else some v
      rw [ih _ hnd2 hmemt]
      by_cases hg : (kv.1 ≠ "id" && kv.2 ≠ "") = true
      · rw [if_pos hg,
          lookupField_setField_ne r kv.1 kv.2 k (fun hh => hkv1 hh.symm)]
      · rw [if_neg hg]

/-! ## Behaviour of the operations on valid / invalid positions -/

theorem read_csv_isEmpty_false (f : CsvFile) (h : f.rows ≠ []) :
    (read_csv f).isEmpty = false := by
  cases hr : f.rows with
  | nil => exact absurd hr h
  | cons a t => simp [read_csv, hr]

theorem annotated_length (f : CsvFile) :
    (annotated f).length = f.rows.length := by
  rw [annotated, length_calculate_rrn, length_read_csv]

theorem delete_entry_valid (f : CsvFile) (p : Int)
    (h1 : 1 ≤ p) (h2 : p ≤ (f.rows.length : Int)) :
    delete_entry f (some p) =
      (write_csv f ((annotated f).eraseIdx (p.toNat - 1)), none) := by
  have hrows : f.rows ≠ [] := by
    intro hh
    rw [hh] at h2
    simp only [List.length_nil, Nat.cast_zero] at h2
    omega
  have hne := read_csv_isEmpty_false f hrows
  have hguard : ¬(p < 1 ∨ p > ((calculate_rrn (read_csv f)).length : Int)) := by
    rw [length_calculate_rrn, length_read_csv]
    omega
  unfold delete_entry annotated
  simp only [hne, Bool.false_eq_true, if_false]
  rw [if_neg hguard]

theorem delete_entry_invalid (f : CsvFile) (p : Int)
    (h : p < 1 ∨ p > (f.rows.length : Int)) :
    (delete_entry f (some p)).1 = f ∧
      ((delete_entry f (some p)).2).isSome = true := by
  unfold delete_entry
  by_cases hr : f.rows = []
  · have : (read_csv f).isEmpty = true := by simp [read_csv, hr]
    simp only [this, if_true]
    simp
  · have hne := read_csv_isEmpty_false f hr
    have hguard : p < 1 ∨ p > ((calculate_rrn (read_csv f)).length : Int) := by
      rw [length_calculate_rrn, length_read_csv]
      exact h
    simp only [hne, Bool.false_eq_true, if_false]
    rw [if_pos hguard]
    simp

theorem delete_entry_cancel (f : CsvFile) :
    (delete_entry f none).1 = f ∧
      ((delete_entry f none).2).isSome = true := by
  unfold delete_entry
  by_cases hr : f.rows = []
  · have : (read_csv f).isEmpty = true := by simp [read_csv, hr]
    simp only [this, if_true]
    simp
  · have hne := read_csv_isEmpty_false f hr
    simp only [hne, Bool.false_eq_true, if_false]
    simp

theorem edit_entry_valid (f : CsvFile) (rt : String) (p : Int)
    (g : String → String)
    (h1 : 1 ≤ p) (h2 : p ≤ (f.rows.length : Int)) :
    edit_entry f rt (some p) g =
      (write_csv f ((annotated f).set (p.toNat - 1) (editedEntry f p g)),
       none) := by
  have hrows : f.rows ≠ [] := by
    intro hh
    rw [hh] at h2
    simp only [List.length_nil, Nat.cast_zero] at h2
    omega
  have hne := read_csv_isEmpty_false f hrows
  have hguard : ¬(p < 1 ∨ p > ((calculate_rrn (read_csv f)).length : Int)) := by
    rw [length_calculate_rrn, length_read_csv]
    omega
  unfold edit_entry editedEntry selectedEntry annotated
  simp only [hne, Bool.false_eq_true, if_false]
  rw [if_neg hguard]

theorem edit_entry_invalid (f : CsvFile) (rt : String) (p : Int)
    (g : String → String)
    (h : p < 1 ∨ p > (f.rows.length : Int)) :
    (edit_entry f rt (some p) g).1 = f ∧
      ((edit_entry f rt (some p) g).2).isSome = true := by
  unfold edit_entry
  by_cases hr : f.rows = []
  · have : (read_csv f).isEmpty = true := by simp [read_csv, hr]
    simp only [this, if_true]
    simp
  · have hne := read_csv_isEmpty_false f hr
    have hguard : p < 1 ∨ p > ((calculate_rrn (read_csv f)).length : Int) := by
      rw [length_calculate_rrn, length_read_csv]
      exact h
    simp only [hne, Bool.false_eq_true, if_false]
    rw [if_pos hguard]
    simp

theorem edit_entry_cancel (f : CsvFile) (rt : String)
    (g : String → String) :
    (edit_entry f rt none g).1 = f ∧
      ((edit_entry f rt none g).2).isSome = true := by
  unfold edit_entry
  by_cases hr : f.rows = []
  · have : (read_csv f).isEmpty = true := by simp [read_csv, hr]
    simp only [this, if_true]
    simp
  · have hne := read_csv_isEmpty_false f hr
    simp only [hne, Bool.false_eq_true, if_false]
    simp

theorem save_student_valid (f : CsvFile) (si : StudentInfo)
    (h : studentInfoValid si = true) :
    save_student f si =
      (write_csv f
        (read_csv f ++ [mkStudentRec ((read_csv f).length + 1) si]),
       none) := by
  unfold save_student
  rw [if_pos h]

theorem save_student_invalid (f : CsvFile) (si : StudentInfo)
    (h : studentInfoValid si = false) :
    save_student f si = (f, some "All fields are required!") := by
  unfold save_student
  rw [h]
  simp

theorem save_course_valid (f : CsvFile) (ci : CourseInfo)
    (h : courseInfoValid ci = true) :
    save_course f ci =
      (write_csv f
        (read_csv f ++ [mkCourseRec ((read_csv f).length + 1) ci]),
       none) := by
  unfold save_course
  rw [if_pos h]

theorem save_course_invalid (f : CsvFile) (ci : CourseInfo)
    (h : courseInfoValid ci = false) :
    save_course f ci = (f, some "All fields are required!") := by
  unfold save_course
  rw [h]
  simp

/-! ## Claim theorems -/

/-- Claim C1: for every add (student or course) with all required fields
non-empty, exactly one record is appended — the stored collection's size
increases by exactly one and the new record's identifier is the previous
size plus one; with any required field empty the operation rejects with a
validation warning and the stored collection is unchanged. -/
theorem add_appends_one_with_next_id (f : CsvFile) (si : StudentInfo)
    (ci : CourseInfo) :
    (studentInfoValid si = true →
      save_student f si =
        (write_csv f (read_csv f ++ [mkStudentRec (f.rows.length + 1) si]),
         none) ∧
      (write_csv f (read_csv f ++ [mkStudentRec (f.rows.length + 1) si])
        ).rows.length = f.rows.length + 1 ∧
      lookupField (mkStudentRec (f.rows.length + 1) si) "id" =
        some (toString (f.rows.length + 1))) ∧
    (studentInfoValid si = false →
      save_student f si = (f, some "All fields are required!")) ∧
    (courseInfoValid ci = true →
      save_course f ci =
        (write_csv f (read_csv f ++ [mkCourseRec (f.rows.length + 1) ci]),
         none) ∧
      (write_csv f (read_csv f ++ [mkCourseRec (f.rows.length + 1) ci])
        ).rows.length = f.rows.length + 1 ∧
      lookupField (mkCourseRec (f.rows.length + 1) ci) "id" =
        some (toString (f.rows.length + 1))) ∧
    (courseInfoValid ci = false →
      save_course f ci = (f, some "All fields are required!")) := by
  refine ⟨?_, ?_, ?_, ?_⟩
  · intro h
    have hv := save_student_valid f si h
    rw [length_read_csv] at hv
    refine ⟨hv, ?_, ?_⟩
    · rw [write_csv_rows_length f _ (by simp)]
      simp [length_read_csv]
    · simp [mkStudentRec, lookupField]
  · intro h
    exact save_student_invalid f si h
  · intro h
    have hv := save_course_valid f ci h
    rw [length_read_csv] at hv
    refine ⟨hv, ?_, ?_⟩
    · rw [write_csv_rows_length f _ (by simp)]
      simp [length_read_csv]
    · simp [mkCourseRec, lookupField]
  · intro h
    exact save_course_invalid f ci h

/-- Witness for claim C1: adding Ann to the empty student file grows the
store by one row; adding with an empty name is rejected and leaves the
store unchanged. -/
theorem add_appends_one_with_next_id_witness :
    (write_csv SampleStudents0
      (read_csv SampleStudents0 ++
        [mkStudentRec (SampleStudents0.rows.length + 1)
          ⟨"Ann", "Female", "20", "X", "CS"⟩])).rows.length =
      SampleStudents0.rows.length + 1 ∧
    save_student SampleStudents0 ⟨"", "Female", "20", "X", "CS"⟩ =
      (SampleStudents0, some "All fields are required!") := by
  constructor
  · exact ((add_appends_one_with_next_id SampleStudents0
      ⟨"Ann", "Female", "20", "X", "CS"⟩ ⟨"C", "1", "Compulsory"⟩).1
      (by decide)).2.1
  · exact (add_appends_one_with_next_id SampleStudents0
      ⟨"", "Female", "20", "X", "CS"⟩ ⟨"C", "1", "Compulsory"⟩).2.1
      (by decide)

/-- Claim C3 counterexample: `write_csv` called with the empty collection
over a non-empty file leaves all of the file's previous content in place
(the `if data:` guard in src/main.py:63 skips the write entirely), so the
backing file does not afterwards reflect only the collection passed to
save. -/
theorem write_csv_empty_counterexample :
    write_csv SampleStudents1 [] = SampleStudents1 ∧
      SampleStudents1.rows ≠ [] := by
  exact ⟨rfl, by decide⟩

/-- Claim C3 (amended): for every NON-empty collection, save overwrites
the whole backing file with exactly the given collection — the result is
a function of the collection alone, independent of the file's previous
content; saving the empty collection, however, is a no-op that leaves the
previous file content in place. -/
theorem write_csv_overwrites (f g : CsvFile) (data : List Rec)
    (h : data ≠ []) :
    write_csv f data = write_csv g data ∧
    write_csv f data =
      ⟨recKeys (data.headD []),
       data.map (projRow (recKeys (data.headD [])))⟩ ∧
    write_csv f [] = f := by
  refine ⟨write_csv_agnostic f g data h, ?_, rfl⟩
  cases data with
  | nil => exact absurd rfl h
  | cons r t => rfl

/-- Witness for claim C3 (amended): writing the two-student collection
over two different files yields the same resulting file. -/
theorem write_csv_overwrites_witness :
    write_csv SampleStudents1 (read_csv SampleStudents2) =
      write_csv SampleCourses0 (read_csv SampleStudents2) :=
  (write_csv_overwrites SampleStudents1 SampleCourses0
    (read_csv SampleStudents2) (by decide)).1

/-- Claim C4: round-trip — loading immediately after saving a non-empty
collection returns a collection equal field-for-field to the one saved,
for collections that are well-formed per the data model (all records
share one duplicate-free field list, as every collection this program
builds does). -/
theorem load_after_save_roundtrip (f : CsvFile) (data : List Rec)
    (hne : data ≠ [])
    (hn : (recKeys (data.headD [])).Nodup)
    (hk : ∀ s ∈ data, recKeys s = recKeys (data.headD [])) :
    read_csv (write_csv f data) = data :=
  read_csv_write_csv f data hne hn hk

/-- Witness for claim C4: the two-student collection survives a
save/load round-trip over an unrelated file verbatim. -/
theorem load_after_save_roundtrip_witness :
    read_csv (write_csv SampleCourses0 (read_csv SampleStudents2)) =
      read_csv SampleStudents2 :=
  load_after_save_roundtrip SampleCourses0 (read_csv SampleStudents2)
    (by decide) (by decide) (by decide)

/-- Claim C5 is violated by the code: `calculate_rrn` annotates the row
dicts in place, and `edit_entry`/`delete_entry` write those annotated
dicts back, so after an edit or a delete the backing file DOES contain a
persisted `RRN` column — deleting position 1 of a two-record file and
editing the only record of a one-record file both persist `RRN` into the
stored header. -/
theorem rrn_is_persisted_by_edit_and_delete :
    "RRN" ∈ ((delete_entry SampleStudents2 (some 1)).1).header ∧
    "RRN" ∈ ((edit_entry SampleStudents1 "student" (some 1)
      (fun _ => "")).1).header := by
  exact ⟨by decide, by decide⟩

/-- Claim C2 counterexample: deleting the only record of a one-record
file at the valid position 1 does NOT reduce the stored collection's size
by one — `write_csv` skips saving the now-empty collection, so the
backing file (and the record in it) survives unchanged. -/
theorem delete_singleton_leaves_store_counterexample :
    delete_entry SampleStudents1 (some 1) = (SampleStudents1, none) ∧
      SampleStudents1.rows.length = 1 := by
  exact ⟨by decide, rfl⟩

/-- Claim C2 (amended): delete at a valid position `p` (1 ≤ p ≤ size)
removes exactly the record at display position `p` of the collection as
annotated at call time, keeping all records before and after it in
order; when the collection has at least two records the stored size
shrinks by exactly one, but deleting the only record of a singleton
collection leaves the backing file unchanged (the save of an empty
collection is skipped); position 0, a negative position, or a position
greater than size fails with a warning and leaves the store unchanged. -/
theorem delete_removes_position (f : CsvFile) (p : Int) :
    (1 ≤ p → p ≤ (f.rows.length : Int) →
      delete_entry f (some p) =
        (write_csv f ((annotated f).eraseIdx (p.toNat - 1)), none) ∧
      (annotated f).eraseIdx (p.toNat - 1) =
        (annotated f).take (p.toNat - 1) ++ (annotated f).drop p.toNat ∧
      ((annotated f).eraseIdx (p.toNat - 1)).length = f.rows.length - 1 ∧
      (2 ≤ f.rows.length →
        (delete_entry f (some p)).1.rows.length = f.rows.length - 1) ∧
      (f.rows.length = 1 → (delete_entry f (some p)).1 = f)) ∧
    ((p < 1 ∨ p > (f.rows.length : Int)) →
      (delete_entry f (some p)).1 = f ∧
        ((delete_entry f (some p)).2).isSome = true) := by
  constructor
  · intro h1 h2
    have hv := delete_entry_valid f p h1 h2
    have hidx : p.toNat - 1 < (annotated f).length := by
      rw [annotated_length]
      omega
    have herase := List.length_eraseIdx_of_lt hidx
    refine ⟨hv, ?_, ?_, ?_, ?_⟩
    · rw [List.eraseIdx_eq_take_drop_succ]
      have hp1 : p.toNat - 1 + 1 = p.toNat := by omega
      rw [hp1]
    · rw [herase, annotated_length]
    · intro h3
      rw [hv]
      have hne : (annotated f).eraseIdx (p.toNat - 1) ≠ [] := by
        intro hh
        rw [hh] at herase
        rw [annotated_length] at herase
        simp at herase
        omega
      show (write_csv f ((annotated f).eraseIdx (p.toNat - 1))).rows.length
        = f.rows.length - 1
      rw [write_csv_rows_length f _ hne, herase, annotated_length]
    · intro h3
      rw [hv]
      have hzero : (annotated f).eraseIdx (p.toNat - 1) = [] := by
        rw [← List.length_eq_zero, herase, annotated_length, h3]
      show write_csv f ((annotated f).eraseIdx (p.toNat - 1)) = f
      rw [hzero]
      rfl
  · exact delete_entry_invalid f p

/-- Witness for claim C2 (amended): deleting position 1 of the
two-record file shrinks the store from 2 rows to 1; deleting position 5
fails and leaves the file unchanged. -/
theorem delete_removes_position_witness :
    (delete_entry SampleStudents2 (some 1)).1.rows.length =
      SampleStudents2.rows.length - 1 ∧
    (delete_entry SampleStudents2 (some 5)).1 = SampleStudents2 := by
  constructor
  · exact (((delete_removes_position SampleStudents2 1).1
      (by decide) (by decide)).2.2.2.1 (by decide))
  · exact ((delete_removes_position SampleStudents2 5).2
      (by decide)).1

/-- Claim C6: edit — a position outside [1, size] (or a cancelled
prompt) fails with a warning and changes nothing; at a valid position
the stored collection is the collection as annotated at call time with
exactly the record at position `p` replaced: its `id` field never
changes, every widget field other than `id` takes the supplied value
when that value is non-empty and keeps its stored value when it is
empty, and every record other than position `p` is exactly the record it
was at call time (the RRN annotation these records carry is the subject
of claim C5). -/
theorem edit_updates_only_selected (f : CsvFile) (rt : String) (p : Int)
    (g : String → String) :
    ((p < 1 ∨ p > (f.rows.length : Int)) →
      (edit_entry f rt (some p) g).1 = f ∧
        ((edit_entry f rt (some p) g).2).isSome = true) ∧
    ((edit_entry f rt none g).1 = f ∧
        ((edit_entry f rt none g).2).isSome = true) ∧
    (1 ≤ p → p ≤ (f.rows.length : Int) →
      edit_entry f rt (some p) g =
        (write_csv f
          ((annotated f).set (p.toNat - 1) (editedEntry f p g)), none) ∧
      lookupField (editedEntry f p g) "id" =
        lookupField (selectedEntry f p) "id" ∧
      ((recKeys (selectedEntry f p)).Nodup →
        ∀ k ∈ recKeys (selectedEntry f p), k ≠ "id" → k ≠ "RRN" →
          (g k ≠ "" → lookupField (editedEntry f p g) k = some (g k)) ∧
          (g k = "" →
            lookupField (editedEntry f p g) k =
              lookupField (selectedEntry f p) k)) ∧
      (∀ j, j ≠ p.toNat - 1 →
        ((annotated f).set (p.toNat - 1) (editedEntry f p g))[j]? =
          (annotated f)[j]?)) := by
  refine ⟨edit_entry_invalid f rt p g, edit_entry_cancel f rt g, ?_⟩
  intro h1 h2
  refine ⟨edit_entry_valid f rt p g h1 h2, ?_, ?_, ?_⟩
  · exact lookupField_applyUpdates_id (selectedEntry f p)
      (editWidgets (selectedEntry f p) g)
  · intro hnd k hk hkid hkrrn
    have hmapfst : (editWidgets (selectedEntry f p) g).map Prod.fst =
        (recKeys (selectedEntry f p)).filter (fun k => k ≠ "RRN") := by
      unfold editWidgets
      rw [List.map_map]
      have hco : (Prod.fst ∘ fun k : String => (k, g k)) = id := rfl
      rw [hco, List.map_id]
    have hmem : (k, g k) ∈ editWidgets (selectedEntry f p) g := by
      unfold editWidgets
      apply List.mem_map_of_mem
      rw [List.mem_filter]
      exact ⟨hk, by simp [hkrrn]⟩
    have hndu : ((editWidgets (selectedEntry f p) g).map Prod.fst).Nodup := by
      rw [hmapfst]
      exact hnd.filter _
    have hlook := lookupField_applyUpdates_mem (selectedEntry f p)
      (editWidgets (selectedEntry f p) g) k (g k) hndu hmem hkid
    constructor
    · intro hgv
      unfold editedEntry
      rw [hlook, if_neg hgv]
    · intro hgv
      unfold editedEntry
      rw [hlook, if_pos hgv]
  · intro j hj
    exact List.getElem?_set_ne (fun hh => hj hh.symm)

/-- Witness for claim C6: on the one-record file, editing position 5
fails and leaves the file unchanged, while editing position 1 with a new
name "Bo" (all other widgets cleared) makes the stored name "Bo". -/
theorem edit_updates_only_selected_witness :
    (edit_entry SampleStudents1 "student" (some 5)
      (fun k => if k == "name" then "Bo" else "")).1 = SampleStudents1 ∧
    lookupField
      (editedEntry SampleStudents1 1
        (fun k => if k == "name" then "Bo" else "")) "name" =
      some "Bo" := by
  constructor
  · exact ((edit_updates_only_selected SampleStudents1 "student" 5
      (fun k => if k == "name" then "Bo" else "")).1 (by decide)).1
  · have h := (((edit_updates_only_selected SampleStudents1 "student" 1
      (fun k => if k == "name" then "Bo" else "")).2.2
        (by decide) (by decide)).2.2.1 (by decide) "name"
        (by decide) (by decide) (by decide)).1 (by decide)
    simpa using h

/-- Claim C7 counterexample: on a non-empty collection the empty query
does NOT return every record — the `if name:` guard treats the empty
reply like a cancelled prompt and skips the search, producing no result
list at all instead of a match-all. -/
theorem search_empty_query_counterexample :
    (search_student SampleStudents2 (some "")).2 = none ∧
      read_csv SampleStudents2 ≠ [] := by
  exact ⟨rfl, by decide⟩

/-- Claim C7 (amended): for every non-empty query, search returns
exactly the subset of records whose name field contains the query as a
case-insensitive substring, in load order, and modifies nothing; the
empty query (like a cancelled prompt) skips the search and returns no
result list rather than matching all records. -/
theorem search_filters_by_name (f : CsvFile) (q : String) (hq : q ≠ "") :
    (search_student f (some q)).1 = f ∧
    (search_student f (some q)).2 =
      some ((read_csv f).filter (nameMatches q)) ∧
    ((read_csv f).filter (nameMatches q)).Sublist (read_csv f) ∧
    (∀ r, r ∈ (read_csv f).filter (nameMatches q) ↔
      r ∈ read_csv f ∧ nameMatches q r = true) ∧
    search_student f none = (f, none) ∧
    (search_student f (some "")).2 = none ∧
    search_course f (some q) = search_student f (some q) := by
  have hqb : (q == "") = false := by
    simp [hq]
  refine ⟨rfl, ?_, List.filter_sublist _, ?_, rfl, rfl, rfl⟩
  · simp [search_student, search_student_data, hqb]
  · intro r
    rw [List.mem_filter]

/-- Witness for claim C7 (amended): searching the two-student file for
"aN" returns exactly Ann's record (case-insensitive substring match). -/
theorem search_filters_by_name_witness :
    (search_student SampleStudents2 (some "aN")).2 =
      some [[("id", "1"), ("name", "Ann"), ("sex", "Female"),
             ("age", "20"), ("institution", "X"), ("major", "CS")]] := by
  have h := (search_filters_by_name SampleStudents2 "aN" (by decide)).2.1
  rw [h]
  decide

/-- Claim C8 counterexample: cancelling the delete prompt (supplying no
input) IS reported as an error — the `not entry_rrn` test lumps the
cancelled prompt together with an invalid position, so the user is shown
the "Invalid RRN!" warning, contradicting "no error is reported". -/
theorem cancel_reports_error_counterexample :
    delete_entry SampleStudents2 none =
      (SampleStudents2, some "Invalid RRN!") := by
  decide

/-- Claim C8 (amended): declining an operation by supplying no input
always leaves the stored collection unchanged, but only search treats
the cancellation silently: edit and delete report an "Invalid RRN!"
warning on a cancelled prompt, and add with all fields left empty
reports a validation warning. -/
theorem cancel_leaves_store_unchanged (f : CsvFile) (rt : String)
    (g : String → String) :
    ((delete_entry f none).1 = f ∧
      ((delete_entry f none).2).isSome = true) ∧
    ((edit_entry f rt none g).1 = f ∧
      ((edit_entry f rt none g).2).isSome = true) ∧
    search_student f none = (f, none) ∧
    search_course f none = (f, none) ∧
    save_student f ⟨"", "", "", "", ""⟩ =
      (f, some "All fields are required!") := by
  refine ⟨delete_entry_cancel f, edit_entry_cancel f rt g, rfl, rfl, ?_⟩
  exact save_student_invalid f _ (by decide)

/-- Claim C10: every mutating operation preserves the relative order of
the records it does not target — a valid add appends the new record at
the very end of the loaded collection, a valid delete erases exactly one
index so that the remaining records form a sublist (prior relative
order) of the call-time collection, and a valid edit replaces one index
in place, leaving the record at every other position untouched. -/
theorem mutations_preserve_order (f : CsvFile) (si : StudentInfo)
    (p : Int) (rt : String) (g : String → String) :
    (studentInfoValid si = true →
      save_student f si =
        (write_csv f
          (read_csv f ++ [mkStudentRec ((read_csv f).length + 1) si]),
         none)) ∧
    (1 ≤ p → p ≤ (f.rows.length : Int) →
      delete_entry f (some p) =
        (write_csv f ((annotated f).eraseIdx (p.toNat - 1)), none) ∧
      ((annotated f).eraseIdx (p.toNat - 1)).Sublist (annotated f)) ∧
    (1 ≤ p → p ≤ (f.rows.length : Int) →
      edit_entry f rt (some p) g =
        (write_csv f
          ((annotated f).set (p.toNat - 1) (editedEntry f p g)), none) ∧
      (∀ j, j ≠ p.toNat - 1 →
        ((annotated f).set (p.toNat - 1) (editedEntry f p g))[j]? =
          (annotated f)[j]?)) := by
  refine ⟨save_student_valid f si, ?_, ?_⟩
  · intro h1 h2
    exact ⟨delete_entry_valid f p h1 h2, List.eraseIdx_sublist _ _⟩
  · intro h1 h2
    exact ⟨edit_entry_valid f rt p g h1 h2,
      fun j hj => List.getElem?_set_ne (fun hh => hj hh.symm)⟩

/-- Witness for claim C10: adding Bob to the one-record file appends him
after Ann, yielding exactly the two-record file. -/
theorem mutations_preserve_order_witness :
    save_student SampleStudents1 ⟨"Bob", "Male", "21", "Y", "EE"⟩ =
      (SampleStudents2, none) := by
  have h := (mutations_preserve_order SampleStudents1
    ⟨"Bob", "Male", "21", "Y", "EE"⟩ 1 "student" (fun _ => "")).1
    (by decide)
  rw [h]
  decide

theorem sort_by_id_eq_of_data_ok (f : CsvFile) (d : List Rec)
    (h : sort_by_id_data (read_csv f) = .ok d) :
    sort_by_id f = (write_csv f d, none) := by
  unfold sort_by_id
  rw [h]

/-- Claim C9 (spec-modelled; src/main.py has no sort operation): sort by
"id" orders the records by identifier numerically ascending, persists
the sorted collection immediately (the successful result is exactly a
write of the sorted data), and is idempotent on the store: sorting the
stored result again yields the same stored collection.  Stated for
non-empty well-formed collections whose identifiers all parse as
integers. -/
theorem sort_by_id_ascending_idempotent (f : CsvFile)
    (hne : read_csv f ≠ [])
    (hn : (recKeys ((read_csv f).headD [])).Nodup)
    (hk : ∀ s ∈ read_csv f, recKeys s = recKeys ((read_csv f).headD []))
    (hid : ∀ r ∈ read_csv f, (parseId r).isSome = true) :
    sort_by_id f = (write_csv f ((read_csv f).mergeSort cmpId), none) ∧
    ((read_csv f).mergeSort cmpId).Pairwise
      (fun a b => cmpId a b = true) ∧
    sort_by_id (sort_by_id f).1 = sort_by_id f := by
  have hall : (read_csv f).all (fun r => (parseId r).isSome) = true :=
    List.all_eq_true.mpr hid
  have hdata : sort_by_id_data (read_csv f) =
      .ok ((read_csv f).mergeSort cmpId) := by
    unfold sort_by_id_data
    rw [if_pos hall]
  have h1 := sort_by_id_eq_of_data_ok f ((read_csv f).mergeSort cmpId) hdata
  have htrans : ∀ a b c : Rec,
      cmpId a b → cmpId b c → cmpId a c := by
    intro a b c hab hbc
    simp only [cmpId, decide_eq_true_eq] at hab hbc ⊢
    exact le_trans hab hbc
  have htotal : ∀ a b : Rec, (cmpId a b || cmpId b a) = true := by
    intro a b
    simp only [cmpId, Bool.or_eq_true, decide_eq_true_eq]
    exact Int.le_total _ _
  have hsorted : ((read_csv f).mergeSort cmpId).Pairwise
      (fun a b => cmpId a b = true) :=
    List.sorted_mergeSort htrans htotal (read_csv f)
  refine ⟨h1, hsorted, ?_⟩
  have hdne : (read_csv f).mergeSort cmpId ≠ [] := by
    intro hh
    have hl := congrArg List.length hh
    rw [List.length_mergeSort] at hl
    simp only [List.length_nil] at hl
    exact hne (List.length_eq_zero.mp hl)
  have hdh : ((read_csv f).mergeSort cmpId).headD [] ∈
      (read_csv f).mergeSort cmpId := by
    cases hd : (read_csv f).mergeSort cmpId with
    | nil => exact absurd hd hdne
    | cons a t => simp
  have hkd : recKeys (((read_csv f).mergeSort cmpId).headD []) =
      recKeys ((read_csv f).headD []) :=
    hk _ (List.mem_mergeSort.mp hdh)
  have hrt : read_csv (write_csv f ((read_csv f).mergeSort cmpId)) =
      (read_csv f).mergeSort cmpId := by
    apply read_csv_write_csv f _ hdne
    · rw [hkd]
      exact hn
    · intro s hs
      rw [hkd]
      exact hk s (List.mem_mergeSort.mp hs)
  have hall2 : ((read_csv f).mergeSort cmpId).all
      (fun r => (parseId r).isSome) = true := by
    apply List.all_eq_true.mpr
    intro r hr
    exact hid r (List.mem_mergeSort.mp hr)
  have hd2 : sort_by_id_data ((read_csv f).mergeSort cmpId) =
      .ok ((read_csv f).mergeSort cmpId) := by
    unfold sort_by_id_data
    rw [if_pos hall2, List.mergeSort_of_sorted hsorted]
  have h2 : sort_by_id (write_csv f ((read_csv f).mergeSort cmpId)) =
      (write_csv (write_csv f ((read_csv f).mergeSort cmpId))
        ((read_csv f).mergeSort cmpId), none) := by
    apply sort_by_id_eq_of_data_ok
    rw [hrt]
    exact hd2
  rw [h1]
  show sort_by_id (write_csv f ((read_csv f).mergeSort cmpId)) =
    (write_csv f ((read_csv f).mergeSort cmpId), none)
  rw [h2, write_csv_agnostic (write_csv f ((read_csv f).mergeSort cmpId))
    f ((read_csv f).mergeSort cmpId) hdne]

/-- Witness for claim C9: sorting the two-record student file twice
yields the same stored file as sorting it once. -/
theorem sort_by_id_ascending_idempotent_witness :
    sort_by_id (sort_by_id SampleStudents2).1 =
      sort_by_id SampleStudents2 :=
  (sort_by_id_ascending_idempotent SampleStudents2
    (by decide) (by decide) (by decide) (by decide)).2.2
